import Mathlib

/-!
Item types of libosmium (`osmium/osm/item_type.hpp`).

A shallow embedding of the header `contrib/libosmium/osmium/osm/item_type.hpp`:
the enumeration `item_type` over `uint16_t`, the two node/way/relation index
helpers, and the conversions between item types, wire characters and names.

Conventions of the embedding.

* `enum class item_type : uint16_t` has a fixed underlying type, so every
  16-bit value is a value of the type. An `item_type` is therefore its numeric
  code together with the bound `code < 2 ^ 16`; the thirteen enumerators are
  named constants.
* `unsigned int` is a natural number reduced modulo `2 ^ 32` where the source
  does arithmetic on it.
* `char` is the type `Char`. Every byte value is a `Char` (code points 0 to 255)
  and all `case` labels of the source are ASCII, so a statement over all
  `Char` covers the whole `char` domain.
* `assert(e)` is modelled as in a build with assertions enabled: a function
  whose assertion fails has no result (`none`).
* `std::basic_ostream` is the state that the formatted insertion of one
  character reads and writes: the characters inserted so far, `good()`,
  `width()`, `fill()`, whether the adjustment is `left`, and how many further
  characters the stream buffer accepts before it refuses a write.
* A function declared `noexcept` whose body has no `throw` is a total function
  to its result type.
-/

namespace osmium

/-- The type `item_type`: `enum class item_type : uint16_t`, a 16-bit code. -/
structure item_type where
  code : Nat
  code_lt : code < 65536
  deriving DecidableEq, Repr

namespace item_type

def undefined : item_type := ⟨0x00, by decide⟩
def node : item_type := ⟨0x01, by decide⟩
def way : item_type := ⟨0x02, by decide⟩
def relation : item_type := ⟨0x03, by decide⟩
def area : item_type := ⟨0x04, by decide⟩
def changeset : item_type := ⟨0x05, by decide⟩
def tag_list : item_type := ⟨0x11, by decide⟩
def way_node_list : item_type := ⟨0x12, by decide⟩
def relation_member_list : item_type := ⟨0x13, by decide⟩
def relation_member_list_with_full_members : item_type := ⟨0x23, by decide⟩
def outer_ring : item_type := ⟨0x40, by decide⟩
def inner_ring : item_type := ⟨0x41, by decide⟩
def changeset_discussion : item_type := ⟨0x80, by decide⟩

/-- The conversion `item_type(n)` of an unsigned integer: the value is reduced
to the 16 bits of the underlying type. -/
def ofNat (n : Nat) : item_type := ⟨n % 65536, Nat.mod_lt n (by decide)⟩

/-- The thirteen enumerators, in the order of their declaration. -/
def enumerators : List item_type :=
  [undefined, node, way, relation, area, changeset, tag_list, way_node_list,
   relation_member_list, relation_member_list_with_full_members, outer_ring,
   inner_ring, changeset_discussion]

end item_type

/-- The check `assert(cond)` of `<cassert>` with assertions enabled: execution
continues only when the condition holds. -/
def c_assert (cond : Bool) : Option Unit :=
  if cond then some () else none

/-- The function `nwr_index_to_item_type(unsigned int i)`:
`assert(i <= 2); return item_type(i+1);`. -/
def nwr_index_to_item_type (i : Nat) : Option item_type := do
  c_assert (decide (i ≤ 2))
  return item_type.ofNat ((i + 1) % 4294967296)

/-- The function `item_type_to_nwr_index(item_type type)`:
`unsigned int i = static_cast<unsigned int>(type); assert(i >= 1 && i <= 3);
return i - 1;`, the subtraction being that of `unsigned int`. -/
def item_type_to_nwr_index (type : item_type) : Option Nat := do
  let i : Nat := type.code
  c_assert (decide (i ≥ 1) && decide (i ≤ 3))
  return (i + 4294967296 - 1) % 4294967296

/-- The function `char_to_item_type(const char c)`: a `switch` over twelve
characters, every other character falling through to `undefined`. -/
def char_to_item_type (c : Char) : item_type :=
  if c = 'n' then item_type.node
  else if c = 'w' then item_type.way
  else if c = 'r' then item_type.relation
  else if c = 'a' then item_type.area
  else if c = 'c' then item_type.changeset
  else if c = 'T' then item_type.tag_list
  else if c = 'N' then item_type.way_node_list
  else if c = 'M' then item_type.relation_member_list
  else if c = 'F' then item_type.relation_member_list_with_full_members
  else if c = 'O' then item_type.outer_ring
  else if c = 'I' then item_type.inner_ring
  else if c = 'D' then item_type.changeset_discussion
  else item_type.undefined

/-- The function `item_type_to_char(const item_type type)`: a `switch` over
twelve enumerators, every other value falling through to `'X'`. -/
def item_type_to_char (type : item_type) : Char :=
  if type = item_type.node then 'n'
  else if type = item_type.way then 'w'
  else if type = item_type.relation then 'r'
  else if type = item_type.area then 'a'
  else if type = item_type.changeset then 'c'
  else if type = item_type.tag_list then 'T'
  else if type = item_type.way_node_list then 'N'
  else if type = item_type.relation_member_list then 'M'
  else if type = item_type.relation_member_list_with_full_members then 'F'
  else if type = item_type.outer_ring then 'O'
  else if type = item_type.inner_ring then 'I'
  else if type = item_type.changeset_discussion then 'D'
  else 'X'

/-- The function `item_type_to_name(const item_type type)`: a `switch` over
twelve enumerators, every other value falling through to `"undefined"`. -/
def item_type_to_name (type : item_type) : String :=
  if type = item_type.node then "node"
  else if type = item_type.way then "way"
  else if type = item_type.relation then "relation"
  else if type = item_type.area then "area"
  else if type = item_type.changeset then "changeset"
  else if type = item_type.tag_list then "tag_list"
  else if type = item_type.way_node_list then "way_node_list"
  else if type = item_type.relation_member_list then "relation_member_list"
  else if type = item_type.relation_member_list_with_full_members then
    "relation_member_list_with_full_members"
  else if type = item_type.outer_ring then "outer_ring"
  else if type = item_type.inner_ring then "inner_ring"
  else if type = item_type.changeset_discussion then "changeset_discussion"
  else "undefined"

/-- The part of the state of a `std::basic_ostream` that formatted output of a
character depends on: the characters inserted so far, `good()`, `width()`,
`fill()`, whether `flags() & adjustfield` is `left`, and `room`, the number of
further characters the stream buffer accepts before it refuses a write. -/
structure basic_ostream where
  output : List Char
  good : Bool
  width : Nat
  fill : Char
  left : Bool
  room : Nat
  deriving DecidableEq, Repr

/-- The standard inserter `out << c` of a single character, a formatted output
function. On a stream that is not good nothing is inserted. Otherwise the
character is padded with `fill()` up to `width()` (after it when the adjustment
is `left`, before it otherwise) and the padded sequence is written to the
stream buffer, which takes the characters it still has room for; when it
refuses one, the insertion stops there and `badbit` is set, so the stream is no
longer good. In both cases `width()` is reset to 0. -/
def basic_ostream.insert_char (out : basic_ostream) (c : Char) : basic_ostream :=
  if out.good then
    let padding := List.replicate (out.width - 1) out.fill
    let seq := if out.left then c :: padding else padding ++ [c]
    { out with
      output := out.output ++ seq.take out.room
      good := decide (seq.length ≤ out.room)
      width := 0
      room := out.room - seq.length }
  else
    out

/-- The inserter `operator<<(std::basic_ostream<TChar, TTraits>& out,
const item_type item_type)`: `return out << item_type_to_char(item_type);`. -/
def «operator<<» (out : basic_ostream) (item_type : item_type) : basic_ostream :=
  out.insert_char (item_type_to_char item_type)

/-- The class `std::runtime_error`: an exception whose only content is the
message returned by `what()`. -/
structure runtime_error where
  what : String
  deriving DecidableEq, Repr

/-- The exception `struct unknown_type : public std::runtime_error`; it declares
no member besides its constructor. -/
structure unknown_type extends runtime_error
  deriving DecidableEq, Repr

/-- The constructor `unknown_type()`, which initialises the base class with
`std::runtime_error("unknown item type")`. -/
def unknown_type.ctor : unknown_type :=
  { what := "unknown item type" }

/-! Auxiliary facts -/

/-- Two item types with the same numeric code are equal. -/
theorem item_type.eq_of_code_eq {a b : item_type} (h : a.code = b.code) : a = b := by
  cases a
  cases b
  simp only [item_type.mk.injEq]
  exact h

/-- A `switch` label matches a value exactly when the codes agree. -/
theorem item_type.eq_iff_code_eq (a b : item_type) : a = b ↔ a.code = b.code :=
  ⟨fun h => by rw [h], item_type.eq_of_code_eq⟩

/-- Every 16-bit value is one of the twelve defined enumerators or reaches the
default of both `switch` statements over item types. -/
theorem item_type.defined_or_default (t : item_type) :
    t ∈ [item_type.node, item_type.way, item_type.relation, item_type.area,
      item_type.changeset, item_type.tag_list, item_type.way_node_list,
      item_type.relation_member_list,
      item_type.relation_member_list_with_full_members, item_type.outer_ring,
      item_type.inner_ring, item_type.changeset_discussion] ∨
    (item_type_to_char t = 'X' ∧ item_type_to_name t = "undefined") := by
  by_cases h : t ∈ [item_type.node, item_type.way, item_type.relation,
      item_type.area, item_type.changeset, item_type.tag_list,
      item_type.way_node_list, item_type.relation_member_list,
      item_type.relation_member_list_with_full_members, item_type.outer_ring,
      item_type.inner_ring, item_type.changeset_discussion]
  · exact Or.inl h
  · right
    simp only [List.mem_cons, List.mem_singleton, List.not_mem_nil, or_false,
      not_or] at h
    obtain ⟨e1, e2, e3, e4, e5, e6, e7, e8, e9, e10, e11, e12⟩ := h
    constructor
    · simp only [item_type_to_char, e1, e2, e3, e4, e5, e6, e7, e8, e9, e10, e11,
        e12, if_false]
    · simp only [item_type_to_name, e1, e2, e3, e4, e5, e6, e7, e8, e9, e10, e11,
        e12, if_false]

/-- Every character is one of the twelve `case` labels of `char_to_item_type`
or reaches its default. -/
theorem char_to_item_type_label_or_default (c : Char) :
    c ∈ ['n', 'w', 'r', 'a', 'c', 'T', 'N', 'M', 'F', 'O', 'I', 'D'] ∨
    char_to_item_type c = item_type.undefined := by
  by_cases h : c ∈ ['n', 'w', 'r', 'a', 'c', 'T', 'N', 'M', 'F', 'O', 'I', 'D']
  · exact Or.inl h
  · right
    simp only [List.mem_cons, List.mem_singleton, List.not_mem_nil, or_false,
      not_or] at h
    obtain ⟨h1, h2, h3, h4, h5, h6, h7, h8, h9, h10, h11, h12⟩ := h
    simp only [char_to_item_type, h1, h2, h3, h4, h5, h6, h7, h8, h9, h10, h11,
      h12, if_false]

/-! Round trip through the wire character -/

/-- C1: for each of the twelve defined item types `t`, decoding the wire
character of `t` gives `t` back:
`char_to_item_type (item_type_to_char t) = t`. -/
theorem char_to_item_type_item_type_to_char (t : item_type)
    (h : t ∈ [item_type.node, item_type.way, item_type.relation, item_type.area,
      item_type.changeset, item_type.tag_list, item_type.way_node_list,
      item_type.relation_member_list,
      item_type.relation_member_list_with_full_members, item_type.outer_ring,
      item_type.inner_ring, item_type.changeset_discussion]) :
    char_to_item_type (item_type_to_char t) = t := by
  simp only [List.mem_cons, List.mem_singleton, List.not_mem_nil, or_false] at h
  rcases h with h | h | h | h | h | h | h | h | h | h | h | h <;> subst h <;> decide

/-- C1 at `way`, the end-to-end example: `way` is written as `'w'` and `'w'` is
read back as `way`, whose numeric code is `0x02`. -/
theorem char_to_item_type_item_type_to_char_way :
    item_type_to_char item_type.way = 'w' ∧
    char_to_item_type (item_type_to_char item_type.way) = item_type.way ∧
    item_type.way.code = 0x02 :=
  ⟨by decide, char_to_item_type_item_type_to_char item_type.way (by decide), by decide⟩

/-! Characters that are not wire characters -/

/-- C2: every character that is not one of the twelve wire characters
`n w r a c T N M F O I D` is decoded as `undefined`. -/
theorem char_to_item_type_eq_undefined (c : Char)
    (h : c ∉ ['n', 'w', 'r', 'a', 'c', 'T', 'N', 'M', 'F', 'O', 'I', 'D']) :
    char_to_item_type c = item_type.undefined := by
  simp only [List.mem_cons, List.mem_singleton, List.not_mem_nil, or_false, not_or] at h
  obtain ⟨h1, h2, h3, h4, h5, h6, h7, h8, h9, h10, h11, h12⟩ := h
  simp only [char_to_item_type, h1, h2, h3, h4, h5, h6, h7, h8, h9, h10, h11, h12,
    if_false]

/-- C2 at `'X'`: the character `'X'` is not a wire character of a defined type
and is decoded as `undefined`. -/
theorem char_to_item_type_X :
    'X' ∉ ['n', 'w', 'r', 'a', 'c', 'T', 'N', 'M', 'F', 'O', 'I', 'D'] ∧
    char_to_item_type 'X' = item_type.undefined :=
  ⟨by decide, char_to_item_type_eq_undefined 'X' (by decide)⟩

/-! The wire table -/

/-- C3: `item_type_to_char` is the wire table `node ↦ 'n'`, `way ↦ 'w'`,
`relation ↦ 'r'`, `area ↦ 'a'`, `changeset ↦ 'c'`, `tag_list ↦ 'T'`,
`way_node_list ↦ 'N'`, `relation_member_list ↦ 'M'`,
`relation_member_list_with_full_members ↦ 'F'`, `outer_ring ↦ 'O'`,
`inner_ring ↦ 'I'`, `changeset_discussion ↦ 'D'`; on each of the twelve defined
item types its result is one of these twelve characters and is not `'X'`. -/
theorem item_type_to_char_table :
    item_type_to_char item_type.node = 'n' ∧
    item_type_to_char item_type.way = 'w' ∧
    item_type_to_char item_type.relation = 'r' ∧
    item_type_to_char item_type.area = 'a' ∧
    item_type_to_char item_type.changeset = 'c' ∧
    item_type_to_char item_type.tag_list = 'T' ∧
    item_type_to_char item_type.way_node_list = 'N' ∧
    item_type_to_char item_type.relation_member_list = 'M' ∧
    item_type_to_char item_type.relation_member_list_with_full_members = 'F' ∧
    item_type_to_char item_type.outer_ring = 'O' ∧
    item_type_to_char item_type.inner_ring = 'I' ∧
    item_type_to_char item_type.changeset_discussion = 'D' ∧
    ∀ t ∈ [item_type.node, item_type.way, item_type.relation, item_type.area,
        item_type.changeset, item_type.tag_list, item_type.way_node_list,
        item_type.relation_member_list,
        item_type.relation_member_list_with_full_members, item_type.outer_ring,
        item_type.inner_ring, item_type.changeset_discussion],
      item_type_to_char t ∈
        ['n', 'w', 'r', 'a', 'c', 'T', 'N', 'M', 'F', 'O', 'I', 'D'] ∧
      item_type_to_char t ≠ 'X' := by
  refine ⟨by decide, by decide, by decide, by decide, by decide, by decide,
    by decide, by decide, by decide, by decide, by decide, by decide, ?_⟩
  intro t ht
  simp only [List.mem_cons, List.mem_singleton, List.not_mem_nil, or_false] at ht
  rcases ht with h | h | h | h | h | h | h | h | h | h | h | h <;> subst h <;> decide

/-- C3 at `outer_ring`: its wire character is `'O'`, one of the twelve and not
`'X'`. -/
theorem item_type_to_char_outer_ring :
    item_type_to_char item_type.outer_ring = 'O' ∧
    item_type_to_char item_type.outer_ring ∈
      ['n', 'w', 'r', 'a', 'c', 'T', 'N', 'M', 'F', 'O', 'I', 'D'] ∧
    item_type_to_char item_type.outer_ring ≠ 'X' :=
  ⟨item_type_to_char_table.2.2.2.2.2.2.2.2.2.1,
   item_type_to_char_table.2.2.2.2.2.2.2.2.2.2.2.2 item_type.outer_ring (by decide)⟩

/-! The table of `char_to_item_type` -/

/-- C4: `char_to_item_type` maps `'n'`, `'w'`, `'r'`, `'a'`, `'c'`, `'T'`,
`'N'`, `'M'`, `'F'`, `'O'`, `'I'`, `'D'` to `node`, `way`, `relation`, `area`,
`changeset`, `tag_list`, `way_node_list`, `relation_member_list`,
`relation_member_list_with_full_members`, `outer_ring`, `inner_ring`,
`changeset_discussion` respectively; these twelve characters are exactly the
ones it recognises (does not send to `undefined`); on them it is injective; and
its image on them is exactly the enumerators other than `undefined`. -/
theorem char_to_item_type_table :
    char_to_item_type 'n' = item_type.node ∧
    char_to_item_type 'w' = item_type.way ∧
    char_to_item_type 'r' = item_type.relation ∧
    char_to_item_type 'a' = item_type.area ∧
    char_to_item_type 'c' = item_type.changeset ∧
    char_to_item_type 'T' = item_type.tag_list ∧
    char_to_item_type 'N' = item_type.way_node_list ∧
    char_to_item_type 'M' = item_type.relation_member_list ∧
    char_to_item_type 'F' = item_type.relation_member_list_with_full_members ∧
    char_to_item_type 'O' = item_type.outer_ring ∧
    char_to_item_type 'I' = item_type.inner_ring ∧
    char_to_item_type 'D' = item_type.changeset_discussion ∧
    (∀ c : Char, char_to_item_type c ≠ item_type.undefined ↔
      c ∈ ['n', 'w', 'r', 'a', 'c', 'T', 'N', 'M', 'F', 'O', 'I', 'D']) ∧
    (∀ c₁ ∈ ['n', 'w', 'r', 'a', 'c', 'T', 'N', 'M', 'F', 'O', 'I', 'D'],
      ∀ c₂ ∈ ['n', 'w', 'r', 'a', 'c', 'T', 'N', 'M', 'F', 'O', 'I', 'D'],
        char_to_item_type c₁ = char_to_item_type c₂ → c₁ = c₂) ∧
    (∀ t : item_type,
      (t ∈ item_type.enumerators ∧ t ≠ item_type.undefined) ↔
        ∃ c ∈ ['n', 'w', 'r', 'a', 'c', 'T', 'N', 'M', 'F', 'O', 'I', 'D'],
          char_to_item_type c = t) := by
  refine ⟨by decide, by decide, by decide, by decide, by decide, by decide,
    by decide, by decide, by decide, by decide, by decide, by decide, ?_, ?_, ?_⟩
  · intro c
    constructor
    · intro hc
      by_contra hmem
      apply hc
      simp only [List.mem_cons, List.mem_singleton, List.not_mem_nil, or_false,
        not_or] at hmem
      obtain ⟨h1, h2, h3, h4, h5, h6, h7, h8, h9, h10, h11, h12⟩ := hmem
      simp only [char_to_item_type, h1, h2, h3, h4, h5, h6, h7, h8, h9, h10, h11,
        h12, if_false]
    · intro hmem
      simp only [List.mem_cons, List.mem_singleton, List.not_mem_nil, or_false] at hmem
      rcases hmem with h | h | h | h | h | h | h | h | h | h | h | h <;>
        subst h <;> decide
  · intro c₁ h₁ c₂ h₂ heq
    have key : ∀ c ∈ ['n', 'w', 'r', 'a', 'c', 'T', 'N', 'M', 'F', 'O', 'I', 'D'],
        item_type_to_char (char_to_item_type c) = c := by decide
    rw [← key c₁ h₁, ← key c₂ h₂, heq]
  · intro t
    constructor
    · rintro ⟨hmem, hne⟩
      simp only [item_type.enumerators, List.mem_cons, List.mem_singleton,
        List.not_mem_nil, or_false] at hmem
      rcases hmem with h | h | h | h | h | h | h | h | h | h | h | h | h
      · exact absurd h hne
      all_goals subst h
      · exact ⟨'n', by decide, by decide⟩
      · exact ⟨'w', by decide, by decide⟩
      · exact ⟨'r', by decide, by decide⟩
      · exact ⟨'a', by decide, by decide⟩
      · exact ⟨'c', by decide, by decide⟩
      · exact ⟨'T', by decide, by decide⟩
      · exact ⟨'N', by decide, by decide⟩
      · exact ⟨'M', by decide, by decide⟩
      · exact ⟨'F', by decide, by decide⟩
      · exact ⟨'O', by decide, by decide⟩
      · exact ⟨'I', by decide, by decide⟩
      · exact ⟨'D', by decide, by decide⟩
    · rintro ⟨c, hc, rfl⟩
      simp only [List.mem_cons, List.mem_singleton, List.not_mem_nil, or_false] at hc
      rcases hc with h | h | h | h | h | h | h | h | h | h | h | h <;>
        subst h <;> decide

/-- C4 at `'w'` and `'n'`: both are recognised, they are decoded as `way` and
`node`, and having different images they are different characters. -/
theorem char_to_item_type_w_n :
    char_to_item_type 'w' = item_type.way ∧
    char_to_item_type 'w' ≠ item_type.undefined ∧
    char_to_item_type 'w' ≠ char_to_item_type 'n' :=
  ⟨char_to_item_type_table.2.1,
   (char_to_item_type_table.2.2.2.2.2.2.2.2.2.2.2.2.1 'w').2 (by decide),
   fun h => absurd
     (char_to_item_type_table.2.2.2.2.2.2.2.2.2.2.2.2.2.1 'w' (by decide) 'n'
       (by decide) h) (by decide)⟩

/-! Values that are not defined item types -/

/-- C5: every 16-bit value whose code is not one of the twelve defined codes
`0x01` to `0x05`, `0x11`, `0x12`, `0x13`, `0x23`, `0x40`, `0x41`, `0x80` has
the wire character `'X'` and the name `"undefined"`. -/
theorem item_type_to_char_name_of_not_defined (v : item_type)
    (h : v.code ∉ [0x01, 0x02, 0x03, 0x04, 0x05, 0x11, 0x12, 0x13, 0x23, 0x40,
      0x41, 0x80]) :
    item_type_to_char v = 'X' ∧ item_type_to_name v = "undefined" := by
  simp only [List.mem_cons, List.mem_singleton, List.not_mem_nil, or_false, not_or] at h
  obtain ⟨h1, h2, h3, h4, h5, h6, h7, h8, h9, h10, h11, h12⟩ := h
  have e1 : v ≠ item_type.node := fun e => h1 (by rw [e]; rfl)
  have e2 : v ≠ item_type.way := fun e => h2 (by rw [e]; rfl)
  have e3 : v ≠ item_type.relation := fun e => h3 (by rw [e]; rfl)
  have e4 : v ≠ item_type.area := fun e => h4 (by rw [e]; rfl)
  have e5 : v ≠ item_type.changeset := fun e => h5 (by rw [e]; rfl)
  have e6 : v ≠ item_type.tag_list := fun e => h6 (by rw [e]; rfl)
  have e7 : v ≠ item_type.way_node_list := fun e => h7 (by rw [e]; rfl)
  have e8 : v ≠ item_type.relation_member_list := fun e => h8 (by rw [e]; rfl)
  have e9 : v ≠ item_type.relation_member_list_with_full_members :=
    fun e => h9 (by rw [e]; rfl)
  have e10 : v ≠ item_type.outer_ring := fun e => h10 (by rw [e]; rfl)
  have e11 : v ≠ item_type.inner_ring := fun e => h11 (by rw [e]; rfl)
  have e12 : v ≠ item_type.changeset_discussion := fun e => h12 (by rw [e]; rfl)
  constructor
  · simp only [item_type_to_char, e1, e2, e3, e4, e5, e6, e7, e8, e9, e10, e11, e12,
      if_false]
  · simp only [item_type_to_name, e1, e2, e3, e4, e5, e6, e7, e8, e9, e10, e11, e12,
      if_false]

/-- C5 at `undefined` (code `0x00`) and at the non-member value `0x06`: both
have the wire character `'X'` and the name `"undefined"`. -/
theorem item_type_to_char_name_undefined :
    item_type.undefined.code = 0x00 ∧
    (item_type_to_char item_type.undefined = 'X' ∧
      item_type_to_name item_type.undefined = "undefined") ∧
    (item_type_to_char (item_type.ofNat 0x06) = 'X' ∧
      item_type_to_name (item_type.ofNat 0x06) = "undefined") :=
  ⟨rfl, item_type_to_char_name_of_not_defined item_type.undefined (by decide),
   item_type_to_char_name_of_not_defined (item_type.ofNat 0x06) (by decide)⟩

/-! Numeric codes -/

/-- C6: the numeric codes of the enumerators are `undefined = 0`, `node = 1`,
`way = 2`, `relation = 3`, `area = 4`, `changeset = 5`, `tag_list = 17`,
`way_node_list = 18`, `relation_member_list = 19`,
`relation_member_list_with_full_members = 35`, `outer_ring = 64`,
`inner_ring = 65`, `changeset_discussion = 128`; the thirteen codes are pairwise
distinct, and `node`, `way`, `relation` have the contiguous codes 1, 2, 3. -/
theorem item_type_codes :
    item_type.undefined.code = 0 ∧
    item_type.node.code = 1 ∧
    item_type.way.code = 2 ∧
    item_type.relation.code = 3 ∧
    item_type.area.code = 4 ∧
    item_type.changeset.code = 5 ∧
    item_type.tag_list.code = 17 ∧
    item_type.way_node_list.code = 18 ∧
    item_type.relation_member_list.code = 19 ∧
    item_type.relation_member_list_with_full_members.code = 35 ∧
    item_type.outer_ring.code = 64 ∧
    item_type.inner_ring.code = 65 ∧
    item_type.changeset_discussion.code = 128 ∧
    item_type.enumerators.length = 13 ∧
    (item_type.enumerators.map item_type.code).Nodup ∧
    item_type.way.code = item_type.node.code + 1 ∧
    item_type.relation.code = item_type.way.code + 1 := by
  refine ⟨rfl, rfl, rfl, rfl, rfl, rfl, rfl, rfl, rfl, rfl, rfl, rfl, rfl, rfl, ?_,
    rfl, rfl⟩
  decide

/-! The node/way/relation index -/

/-- C7: for every index `i` in `{0, 1, 2}`, `nwr_index_to_item_type i` returns
an item type and `item_type_to_nwr_index` of it returns `i`. -/
theorem item_type_to_nwr_index_nwr_index_to_item_type (i : Nat)
    (h : i ∈ [0, 1, 2]) :
    (nwr_index_to_item_type i).bind item_type_to_nwr_index = some i := by
  simp only [List.mem_cons, List.mem_singleton, List.not_mem_nil, or_false] at h
  rcases h with h | h | h <;> subst h <;> decide

/-- C7 at index `1`: it is sent to `way`, and `way` is sent back to `1`. -/
theorem item_type_to_nwr_index_nwr_index_to_item_type_one :
    nwr_index_to_item_type 1 = some item_type.way ∧
    (nwr_index_to_item_type 1).bind item_type_to_nwr_index = some 1 :=
  ⟨by decide, item_type_to_nwr_index_nwr_index_to_item_type 1 (by decide)⟩

/-- C8: for every item type `t` among `node`, `way`, `relation`,
`item_type_to_nwr_index t` returns an index and `nwr_index_to_item_type` of it
returns `t`. -/
theorem nwr_index_to_item_type_item_type_to_nwr_index (t : item_type)
    (h : t ∈ [item_type.node, item_type.way, item_type.relation]) :
    (item_type_to_nwr_index t).bind nwr_index_to_item_type = some t := by
  simp only [List.mem_cons, List.mem_singleton, List.not_mem_nil, or_false] at h
  rcases h with h | h | h <;> subst h <;> decide

/-- C8 at `relation`: it is sent to `2`, and `2` is sent back to `relation`. -/
theorem nwr_index_to_item_type_item_type_to_nwr_index_relation :
    item_type_to_nwr_index item_type.relation = some 2 ∧
    (item_type_to_nwr_index item_type.relation).bind nwr_index_to_item_type =
      some item_type.relation :=
  ⟨by decide,
   nwr_index_to_item_type_item_type_to_nwr_index item_type.relation (by decide)⟩

/-- C9: `item_type_to_nwr_index` returns `0` for `node`, `1` for `way` and `2`
for `relation`; on every item type of its domain (numeric code 1 to 3) it
returns the numeric code minus 1. -/
theorem item_type_to_nwr_index_table :
    item_type_to_nwr_index item_type.node = some 0 ∧
    item_type_to_nwr_index item_type.way = some 1 ∧
    item_type_to_nwr_index item_type.relation = some 2 ∧
    ∀ t : item_type, 1 ≤ t.code ∧ t.code ≤ 3 →
      item_type_to_nwr_index t = some (t.code - 1) := by
  refine ⟨by decide, by decide, by decide, ?_⟩
  rintro t ⟨h1, h3⟩
  have hc : (decide (t.code ≥ 1) && decide (t.code ≤ 3)) = true := by
    simp only [ge_iff_le, Bool.and_eq_true, decide_eq_true_eq]
    exact ⟨h1, h3⟩
  have hm : (t.code + 4294967296 - 1) % 4294967296 = t.code - 1 := by omega
  simp only [item_type_to_nwr_index, c_assert, hc, hm, if_true, bind, Option.bind,
    pure]

/-- C9 at `way`: its numeric code is 2 and its index is `2 - 1`. -/
theorem item_type_to_nwr_index_way :
    item_type.way.code = 2 ∧
    item_type_to_nwr_index item_type.way = some (2 - 1) :=
  ⟨rfl, item_type_to_nwr_index_table.2.2.2 item_type.way (by decide)⟩

/-- C10: `nwr_index_to_item_type` sends `0` to `node`, `1` to `way` and `2` to
`relation`; for every index `i` in `{0, 1, 2}` it returns the item type whose
numeric code is `i + 1`, which is one of `node`, `way`, `relation`. -/
theorem nwr_index_to_item_type_table :
    nwr_index_to_item_type 0 = some item_type.node ∧
    nwr_index_to_item_type 1 = some item_type.way ∧
    nwr_index_to_item_type 2 = some item_type.relation ∧
    ∀ i ∈ [0, 1, 2], ∃ t : item_type,
      nwr_index_to_item_type i = some t ∧ t.code = i + 1 ∧
        t ∈ [item_type.node, item_type.way, item_type.relation] := by
  refine ⟨by decide, by decide, by decide, ?_⟩
  intro i hi
  simp only [List.mem_cons, List.mem_singleton, List.not_mem_nil, or_false] at hi
  rcases hi with h | h | h <;> subst h
  · exact ⟨item_type.node, by decide, rfl, by decide⟩
  · exact ⟨item_type.way, by decide, rfl, by decide⟩
  · exact ⟨item_type.relation, by decide, rfl, by decide⟩

/-- C10 at index `2`: the result exists, has numeric code 3 and is one of
`node`, `way`, `relation`. -/
theorem nwr_index_to_item_type_two :
    ∃ t : item_type, nwr_index_to_item_type 2 = some t ∧ t.code = 2 + 1 ∧
      t ∈ [item_type.node, item_type.way, item_type.relation] :=
  nwr_index_to_item_type_table.2.2.2 2 (by decide)

/-! Round trip through the item type -/

/-- C11: for each of the twelve recognised characters `c`,
`item_type_to_char (char_to_item_type c) = c`; for every other character the
composition gives `'X'`; hence the composition is idempotent, and the
characters it fixes are exactly the twelve recognised ones and `'X'`. -/
theorem item_type_to_char_char_to_item_type :
    (∀ c ∈ ['n', 'w', 'r', 'a', 'c', 'T', 'N', 'M', 'F', 'O', 'I', 'D'],
      item_type_to_char (char_to_item_type c) = c) ∧
    (∀ c : Char, c ∉ ['n', 'w', 'r', 'a', 'c', 'T', 'N', 'M', 'F', 'O', 'I', 'D'] →
      item_type_to_char (char_to_item_type c) = 'X') ∧
    (∀ c : Char,
      item_type_to_char (char_to_item_type (item_type_to_char (char_to_item_type c))) =
        item_type_to_char (char_to_item_type c)) ∧
    (∀ c : Char, item_type_to_char (char_to_item_type c) = c ↔
      c ∈ ['n', 'w', 'r', 'a', 'c', 'T', 'N', 'M', 'F', 'O', 'I', 'D', 'X']) := by
  have hin : ∀ c ∈ ['n', 'w', 'r', 'a', 'c', 'T', 'N', 'M', 'F', 'O', 'I', 'D'],
      item_type_to_char (char_to_item_type c) = c := by decide
  have hout : ∀ c : Char,
      c ∉ ['n', 'w', 'r', 'a', 'c', 'T', 'N', 'M', 'F', 'O', 'I', 'D'] →
      item_type_to_char (char_to_item_type c) = 'X' := by
    intro c hc
    rcases char_to_item_type_label_or_default c with h | h
    · exact absurd h hc
    · rw [h]
      decide
  refine ⟨hin, hout, ?_, ?_⟩
  · intro c
    by_cases hc : c ∈ ['n', 'w', 'r', 'a', 'c', 'T', 'N', 'M', 'F', 'O', 'I', 'D']
    · rw [hin c hc]
      exact hin c hc
    · rw [hout c hc]
      decide
  · intro c
    by_cases hc : c ∈ ['n', 'w', 'r', 'a', 'c', 'T', 'N', 'M', 'F', 'O', 'I', 'D']
    · constructor
      · intro _
        simp only [List.mem_cons, List.mem_singleton, List.not_mem_nil, or_false]
          at hc ⊢
        rcases hc with h | h | h | h | h | h | h | h | h | h | h | h <;> simp [h]
      · intro _
        exact hin c hc
    · rw [hout c hc]
      constructor
      · intro h
        rw [← h]
        decide
      · intro h
        simp only [List.mem_cons, List.mem_singleton, List.not_mem_nil, or_false]
          at h
        rcases h with h | h | h | h | h | h | h | h | h | h | h | h | h
        all_goals first | exact h.symm | exact absurd (by simp [h]) hc

/-- C11 at `'T'`, `'X'` and `'z'`: `'T'` and `'X'` are fixed by the composition,
and `'z'`, which is not recognised, is sent to `'X'`. -/
theorem item_type_to_char_char_to_item_type_T_X_z :
    item_type_to_char (char_to_item_type 'T') = 'T' ∧
    item_type_to_char (char_to_item_type 'X') = 'X' ∧
    item_type_to_char (char_to_item_type 'z') = 'X' :=
  ⟨item_type_to_char_char_to_item_type.1 'T' (by decide),
   (item_type_to_char_char_to_item_type.2.2.2 'X').2 (by decide),
   item_type_to_char_char_to_item_type.2.1 'z' (by decide)⟩

/-! Names -/

/-- C12: `item_type_to_name` is injective on the twelve defined item types (two
distinct defined item types have different names, compared as strings) and the
name of each of them is not empty. -/
theorem item_type_to_name_injective_on_defined :
    (∀ t₁ ∈ [item_type.node, item_type.way, item_type.relation, item_type.area,
        item_type.changeset, item_type.tag_list, item_type.way_node_list,
        item_type.relation_member_list,
        item_type.relation_member_list_with_full_members, item_type.outer_ring,
        item_type.inner_ring, item_type.changeset_discussion],
      ∀ t₂ ∈ [item_type.node, item_type.way, item_type.relation, item_type.area,
        item_type.changeset, item_type.tag_list, item_type.way_node_list,
        item_type.relation_member_list,
        item_type.relation_member_list_with_full_members, item_type.outer_ring,
        item_type.inner_ring, item_type.changeset_discussion],
      t₁ ≠ t₂ → item_type_to_name t₁ ≠ item_type_to_name t₂) ∧
    (∀ t ∈ [item_type.node, item_type.way, item_type.relation, item_type.area,
        item_type.changeset, item_type.tag_list, item_type.way_node_list,
        item_type.relation_member_list,
        item_type.relation_member_list_with_full_members, item_type.outer_ring,
        item_type.inner_ring, item_type.changeset_discussion],
      item_type_to_name t ≠ "" ∧ 0 < (item_type_to_name t).length) := by
  constructor
  · decide
  · decide

/-- C12 at `relation_member_list` and `relation_member_list_with_full_members`:
two distinct defined item types whose names differ although one name begins
with the other. -/
theorem item_type_to_name_injective_on_member_lists :
    item_type_to_name item_type.relation_member_list ≠
      item_type_to_name item_type.relation_member_list_with_full_members ∧
    item_type_to_name item_type.relation_member_list ≠ "" :=
  ⟨item_type_to_name_injective_on_defined.1 item_type.relation_member_list
      (by decide) item_type.relation_member_list_with_full_members (by decide)
      (by decide),
   (item_type_to_name_injective_on_defined.2 item_type.relation_member_list
      (by decide)).1⟩

/-- C13: for each of the twelve defined item types `item_type_to_name` returns
the identifier of the enumerator (`node` gives `"node"`, and so on up to
`changeset_discussion` giving `"changeset_discussion"`), and every character of
the name returned for any 16-bit value, `"undefined"` included, is a lowercase
letter `a` to `z` or an underscore. -/
theorem item_type_to_name_table :
    item_type_to_name item_type.node = "node" ∧
    item_type_to_name item_type.way = "way" ∧
    item_type_to_name item_type.relation = "relation" ∧
    item_type_to_name item_type.area = "area" ∧
    item_type_to_name item_type.changeset = "changeset" ∧
    item_type_to_name item_type.tag_list = "tag_list" ∧
    item_type_to_name item_type.way_node_list = "way_node_list" ∧
    item_type_to_name item_type.relation_member_list = "relation_member_list" ∧
    item_type_to_name item_type.relation_member_list_with_full_members =
      "relation_member_list_with_full_members" ∧
    item_type_to_name item_type.outer_ring = "outer_ring" ∧
    item_type_to_name item_type.inner_ring = "inner_ring" ∧
    item_type_to_name item_type.changeset_discussion = "changeset_discussion" ∧
    ∀ t : item_type, ∀ ch ∈ (item_type_to_name t).toList,
      ('a' ≤ ch ∧ ch ≤ 'z') ∨ ch = '_' := by
  refine ⟨by decide, by decide, by decide, by decide, by decide, by decide,
    by decide, by decide, by decide, by decide, by decide, by decide, ?_⟩
  intro t
  have hdef : ∀ d ∈ [item_type.node, item_type.way, item_type.relation,
      item_type.area, item_type.changeset, item_type.tag_list,
      item_type.way_node_list, item_type.relation_member_list,
      item_type.relation_member_list_with_full_members, item_type.outer_ring,
      item_type.inner_ring, item_type.changeset_discussion],
      ∀ ch ∈ (item_type_to_name d).toList, ('a' ≤ ch ∧ ch ≤ 'z') ∨ ch = '_' := by
    decide
  rcases item_type.defined_or_default t with h | ⟨_, h⟩
  · exact hdef t h
  · rw [h]
    decide

/-- C13 at `way_node_list` and at the non-member value `0x06`: the names are
`"way_node_list"` and `"undefined"`, and the underscore of the former is an
admitted character. -/
theorem item_type_to_name_way_node_list :
    item_type_to_name item_type.way_node_list = "way_node_list" ∧
    item_type_to_name (item_type.ofNat 0x06) = "undefined" ∧
    (('a' ≤ '_' ∧ '_' ≤ 'z') ∨ '_' = '_') :=
  ⟨item_type_to_name_table.2.2.2.2.2.2.1, by decide,
   item_type_to_name_table.2.2.2.2.2.2.2.2.2.2.2.2 item_type.way_node_list '_'
     (by decide)⟩

/-! Formatted output -/

/-- C15: a default-constructed `unknown_type` has the `what()` text
`"unknown item type"` and nothing else (an `unknown_type` is determined by its
message); and the three conversion functions do not raise it: each is a total
function that for every input returns a value of its table, `undefined`, `'X'`
and `"undefined"` being the defaults. -/
theorem unknown_type_what :
    unknown_type.ctor.what = "unknown item type" ∧
    (∀ e : unknown_type, e.what = unknown_type.ctor.what → e = unknown_type.ctor) ∧
    (∀ c : Char, char_to_item_type c ∈ item_type.enumerators) ∧
    (∀ t : item_type, item_type_to_char t ∈
      ['X', 'n', 'w', 'r', 'a', 'c', 'T', 'N', 'M', 'F', 'O', 'I', 'D']) ∧
    (∀ t : item_type, item_type_to_name t ∈
      ["undefined", "node", "way", "relation", "area", "changeset", "tag_list",
       "way_node_list", "relation_member_list",
       "relation_member_list_with_full_members", "outer_ring", "inner_ring",
       "changeset_discussion"]) := by
  refine ⟨rfl, ?_, ?_, ?_, ?_⟩
  · rintro ⟨⟨w⟩⟩ h
    simp only at h
    subst h
    rfl
  · intro c
    rcases char_to_item_type_label_or_default c with h | h
    · simp only [List.mem_cons, List.mem_singleton, List.not_mem_nil, or_false] at h
      rcases h with h | h | h | h | h | h | h | h | h | h | h | h <;> subst h <;>
        decide
    · rw [h]
      decide
  · intro t
    rcases item_type.defined_or_default t with h | ⟨h, _⟩
    · simp only [List.mem_cons, List.mem_singleton, List.not_mem_nil, or_false] at h
      rcases h with h | h | h | h | h | h | h | h | h | h | h | h <;> subst h <;>
        decide
    · rw [h]
      decide
  · intro t
    rcases item_type.defined_or_default t with h | ⟨_, h⟩
    · simp only [List.mem_cons, List.mem_singleton, List.not_mem_nil, or_false] at h
      rcases h with h | h | h | h | h | h | h | h | h | h | h | h <;> subst h <;>
        decide
    · rw [h]
      decide

/-- C15 at an exception built from the message `"unknown item type"` and at the
character `'?'`: the exception is the default-constructed one, and decoding
`'?'` returns an enumerator. -/
theorem unknown_type_what_unique :
    (⟨⟨"unknown item type"⟩⟩ : unknown_type) = unknown_type.ctor ∧
    char_to_item_type '?' ∈ item_type.enumerators :=
  ⟨unknown_type_what.2.1 ⟨⟨"unknown item type"⟩⟩ rfl, unknown_type_what.2.2.1 '?'⟩

/-! The assertions of the node/way/relation helpers -/

/-- C16: the assertion of `nwr_index_to_item_type i` holds (the function returns)
exactly when `i` is 0, 1 or 2, and the assertion of `item_type_to_nwr_index t`
holds exactly when `t` is `node`, `way` or `relation`; for every other 16-bit
value, enumerator or not, it fails. -/
theorem nwr_assertions :
    (∀ i : Nat, (nwr_index_to_item_type i).isSome = true ↔ i ∈ [0, 1, 2]) ∧
    (∀ t : item_type, (item_type_to_nwr_index t).isSome = true ↔
      t ∈ [item_type.node, item_type.way, item_type.relation]) ∧
    (∀ t : item_type, t ∉ [item_type.node, item_type.way, item_type.relation] →
      item_type_to_nwr_index t = none) := by
  have hidx : ∀ t : item_type, (item_type_to_nwr_index t).isSome = true ↔
      t ∈ [item_type.node, item_type.way, item_type.relation] := by
    intro t
    simp only [List.mem_cons, List.mem_singleton, List.not_mem_nil, or_false,
      item_type.eq_iff_code_eq]
    have hn : item_type.node.code = 1 := rfl
    have hw : item_type.way.code = 2 := rfl
    have hr : item_type.relation.code = 3 := rfl
    rw [hn, hw, hr]
    by_cases hc : 1 ≤ t.code ∧ t.code ≤ 3
    · have hb : (decide (t.code ≥ 1) && decide (t.code ≤ 3)) = true := by
        simp only [ge_iff_le, Bool.and_eq_true, decide_eq_true_eq]
        exact hc
      simp only [item_type_to_nwr_index, c_assert, hb, if_true, bind, Option.bind,
        pure, Option.isSome_some, true_iff]
      omega
    · have hb : (decide (t.code ≥ 1) && decide (t.code ≤ 3)) = false := by
        rw [Bool.eq_false_iff]
        simp only [ge_iff_le, ne_eq, Bool.and_eq_true, decide_eq_true_eq]
        exact hc
      simp only [item_type_to_nwr_index, c_assert, hb, bind, Option.bind,
        Option.isSome_none, Bool.false_eq_true, if_false, false_iff]
      omega
  refine ⟨?_, hidx, ?_⟩
  · intro i
    simp only [List.mem_cons, List.mem_singleton, List.not_mem_nil, or_false]
    by_cases hi : i ≤ 2
    · have hb : decide (i ≤ 2) = true := decide_eq_true hi
      simp only [nwr_index_to_item_type, c_assert, hb, if_true, bind, Option.bind,
        pure, Option.isSome_some, true_iff]
      omega
    · have hb : decide (i ≤ 2) = false := decide_eq_false hi
      simp only [nwr_index_to_item_type, c_assert, hb, bind, Option.bind,
        Option.isSome_none, Bool.false_eq_true, if_false, false_iff]
      omega
  · intro t ht
    have h := (hidx t).not.mpr ht
    simpa using h

/-- C16 at the index 3 and at `area`, `undefined`, `tag_list` and the non-member
value `0x06`: the assertions fail there, while they hold at the index 2 and at
`way`. -/
theorem nwr_assertions_examples :
    nwr_index_to_item_type 3 = none ∧
    item_type_to_nwr_index item_type.area = none ∧
    item_type_to_nwr_index item_type.undefined = none ∧
    item_type_to_nwr_index item_type.tag_list = none ∧
    item_type_to_nwr_index (item_type.ofNat 0x06) = none ∧
    (nwr_index_to_item_type 2).isSome = true ∧
    (item_type_to_nwr_index item_type.way).isSome = true :=
  ⟨by decide,
   nwr_assertions.2.2 item_type.area (by decide),
   nwr_assertions.2.2 item_type.undefined (by decide),
   nwr_assertions.2.2 item_type.tag_list (by decide),
   nwr_assertions.2.2 (item_type.ofNat 0x06) (by decide),
   (nwr_assertions.1 2).2 (by decide),
   (nwr_assertions.2.1 item_type.way).2 (by decide)⟩

/-! The grouping of the numeric codes -/

/-- C17, as stated, fails: `relation_member_list_with_full_members` is an
enumerator and a list sub-structure (its name contains `"list"`), yet its code
`0x23` is not in `0x10..0x1F`. -/
theorem code_grouping_full_members :
    item_type.relation_member_list_with_full_members ∈ item_type.enumerators ∧
    "list".toList <:+:
      (item_type_to_name item_type.relation_member_list_with_full_members).toList ∧
    item_type.relation_member_list_with_full_members.code = 0x23 ∧
    ¬ ((0x10 ≤ item_type.relation_member_list_with_full_members.code ∧
        item_type.relation_member_list_with_full_members.code ≤ 0x1F) ↔
      item_type.relation_member_list_with_full_members ∈
        [item_type.tag_list, item_type.way_node_list,
         item_type.relation_member_list,
         item_type.relation_member_list_with_full_members]) := by
  refine ⟨by decide, by decide, rfl, by decide⟩

/-- C17, amended: an enumerator has a code in `0x10..0x1F` exactly when it is
`tag_list`, `way_node_list` or `relation_member_list`; a code in `0x40..0x4F`
exactly when it is `outer_ring` or `inner_ring`; a code in `0x80..0x8F` exactly
when it is `changeset_discussion`; and its name contains `"list"` exactly when
it is one of those three or `relation_member_list_with_full_members`, whose
code `0x23` lies in `0x20..0x2F`. -/
theorem code_grouping (t : item_type) (h : t ∈ item_type.enumerators) :
    ((0x10 ≤ t.code ∧ t.code ≤ 0x1F) ↔
      t ∈ [item_type.tag_list, item_type.way_node_list,
           item_type.relation_member_list]) ∧
    ((0x40 ≤ t.code ∧ t.code ≤ 0x4F) ↔
      t ∈ [item_type.outer_ring, item_type.inner_ring]) ∧
    ((0x80 ≤ t.code ∧ t.code ≤ 0x8F) ↔ t = item_type.changeset_discussion) ∧
    ("list".toList <:+: (item_type_to_name t).toList ↔
      t ∈ [item_type.tag_list, item_type.way_node_list,
           item_type.relation_member_list,
           item_type.relation_member_list_with_full_members]) ∧
    ((0x20 ≤ t.code ∧ t.code ≤ 0x2F) ↔
      t = item_type.relation_member_list_with_full_members) := by
  simp only [item_type.enumerators, List.mem_cons, List.mem_singleton,
    List.not_mem_nil, or_false] at h
  rcases h with h | h | h | h | h | h | h | h | h | h | h | h | h <;> subst h <;>
    decide

/-- C17 amended, at `tag_list`: its code `0x11` lies in `0x10..0x1F`, it is one
of the three list sub-structures of that range, and its name contains
`"list"`. -/
theorem code_grouping_tag_list :
    item_type.tag_list.code = 0x11 ∧
    ((0x10 ≤ item_type.tag_list.code ∧ item_type.tag_list.code ≤ 0x1F) ↔
      item_type.tag_list ∈ [item_type.tag_list, item_type.way_node_list,
        item_type.relation_member_list]) ∧
    "list".toList <:+: (item_type_to_name item_type.tag_list).toList :=
  ⟨rfl, (code_grouping item_type.tag_list (by decide)).1,
   (code_grouping item_type.tag_list (by decide)).2.2.2.1.2 (by decide)⟩

/-! Characters and names together -/

/-- C18: two 16-bit values have the same wire character exactly when they have
the same name; the wire character is `'X'` exactly when the name is
`"undefined"`; and `item_type_to_name` is injective on the thirteen
enumerators. -/
theorem item_type_to_char_eq_iff_item_type_to_name_eq :
    (∀ a b : item_type, item_type_to_char a = item_type_to_char b ↔
      item_type_to_name a = item_type_to_name b) ∧
    (∀ a : item_type, item_type_to_char a = 'X' ↔
      item_type_to_name a = "undefined") ∧
    (∀ a ∈ item_type.enumerators, ∀ b ∈ item_type.enumerators,
      item_type_to_name a = item_type_to_name b → a = b) := by
  have hdd : ∀ a ∈ [item_type.node, item_type.way, item_type.relation,
      item_type.area, item_type.changeset, item_type.tag_list,
      item_type.way_node_list, item_type.relation_member_list,
      item_type.relation_member_list_with_full_members, item_type.outer_ring,
      item_type.inner_ring, item_type.changeset_discussion],
      ∀ b ∈ [item_type.node, item_type.way, item_type.relation,
      item_type.area, item_type.changeset, item_type.tag_list,
      item_type.way_node_list, item_type.relation_member_list,
      item_type.relation_member_list_with_full_members, item_type.outer_ring,
      item_type.inner_ring, item_type.changeset_discussion],
      (item_type_to_char a = item_type_to_char b ↔
        item_type_to_name a = item_type_to_name b) := by decide
  have hd : ∀ a ∈ [item_type.node, item_type.way, item_type.relation,
      item_type.area, item_type.changeset, item_type.tag_list,
      item_type.way_node_list, item_type.relation_member_list,
      item_type.relation_member_list_with_full_members, item_type.outer_ring,
      item_type.inner_ring, item_type.changeset_discussion],
      item_type_to_char a ≠ 'X' ∧ item_type_to_name a ≠ "undefined" := by decide
  have hX : ∀ a : item_type, item_type_to_char a = 'X' ↔
      item_type_to_name a = "undefined" := by
    intro a
    rcases item_type.defined_or_default a with ha | ⟨hc, hn⟩
    · exact ⟨fun h => absurd h (hd a ha).1, fun h => absurd h (hd a ha).2⟩
    · exact ⟨fun _ => hn, fun _ => hc⟩
  refine ⟨?_, hX, by decide⟩
  intro a b
  rcases item_type.defined_or_default a with ha | ⟨hca, hna⟩
  · rcases item_type.defined_or_default b with hb | ⟨hcb, hnb⟩
    · exact hdd a ha b hb
    · rw [hcb, hnb]
      exact hX a
  · rw [hca, hna]
    constructor
    · intro h
      exact ((hX b).1 h.symm).symm
    · intro h
      exact ((hX b).2 h.symm).symm

/-- C18 at `undefined` and the non-member value `0x06`, and at `node` and `way`:
the former two share both the character `'X'` and the name `"undefined"`, the
latter two differ in both. -/
theorem item_type_to_char_eq_iff_item_type_to_name_eq_examples :
    item_type_to_name item_type.undefined = item_type_to_name (item_type.ofNat 0x06) ∧
    item_type_to_name item_type.node ≠ item_type_to_name item_type.way :=
  ⟨(item_type_to_char_eq_iff_item_type_to_name_eq.1 item_type.undefined
      (item_type.ofNat 0x06)).1 (by decide),
   fun h => absurd
     ((item_type_to_char_eq_iff_item_type_to_name_eq.1 item_type.node
       item_type.way).2 h) (by decide)⟩

/-! The case of the wire character -/

/-- C19: for every 16-bit value `t`, the wire character of `t` is a lowercase
ASCII letter exactly when the code of `t` is in `1..5` (`node`, `way`,
`relation`, `area`, `changeset`), and then it is the first character of the
name of `t`; for every other value it is an uppercase ASCII letter. -/
theorem item_type_to_char_case (t : item_type) :
    (('a' ≤ item_type_to_char t ∧ item_type_to_char t ≤ 'z') ↔
      (1 ≤ t.code ∧ t.code ≤ 5)) ∧
    ((1 ≤ t.code ∧ t.code ≤ 5) ↔
      t ∈ [item_type.node, item_type.way, item_type.relation, item_type.area,
           item_type.changeset]) ∧
    ((1 ≤ t.code ∧ t.code ≤ 5) →
      (item_type_to_name t).toList.head? = some (item_type_to_char t)) ∧
    (¬ (1 ≤ t.code ∧ t.code ≤ 5) →
      'A' ≤ item_type_to_char t ∧ item_type_to_char t ≤ 'Z') := by
  rcases item_type.defined_or_default t with h | ⟨hc, _⟩
  · simp only [List.mem_cons, List.mem_singleton, List.not_mem_nil, or_false] at h
    rcases h with h | h | h | h | h | h | h | h | h | h | h | h <;> subst h <;>
      decide
  · have hprim : ∀ d ∈ [item_type.node, item_type.way, item_type.relation,
        item_type.area, item_type.changeset], item_type_to_char d ≠ 'X' := by
      decide
    have hmem : (1 ≤ t.code ∧ t.code ≤ 5) ↔
        t ∈ [item_type.node, item_type.way, item_type.relation, item_type.area,
             item_type.changeset] := by
      simp only [List.mem_cons, List.mem_singleton, List.not_mem_nil, or_false,
        item_type.eq_iff_code_eq]
      have h1 : item_type.node.code = 1 := rfl
      have h2 : item_type.way.code = 2 := rfl
      have h3 : item_type.relation.code = 3 := rfl
      have h4 : item_type.area.code = 4 := rfl
      have h5 : item_type.changeset.code = 5 := rfl
      rw [h1, h2, h3, h4, h5]
      omega
    have hno : ¬ (1 ≤ t.code ∧ t.code ≤ 5) := fun hr => hprim t (hmem.1 hr) hc
    refine ⟨?_, hmem, fun hr => absurd hr hno, fun _ => ?_⟩
    · rw [hc]
      exact ⟨fun hl => absurd hl (by decide), fun hr => absurd hr hno⟩
    · rw [hc]
      decide

/-- C19 at `changeset`, `tag_list` and `undefined`: `'c'` is lowercase and is the
first character of `"changeset"`; `'T'` and `'X'` are uppercase. -/
theorem item_type_to_char_case_examples :
    (item_type_to_name item_type.changeset).toList.head? = some 'c' ∧
    ('A' ≤ item_type_to_char item_type.tag_list ∧
      item_type_to_char item_type.tag_list ≤ 'Z') ∧
    ('A' ≤ item_type_to_char item_type.undefined ∧
      item_type_to_char item_type.undefined ≤ 'Z') :=
  ⟨(item_type_to_char_case item_type.changeset).2.2.1 (by decide),
   (item_type_to_char_case item_type.tag_list).2.2.2 (by decide),
   (item_type_to_char_case item_type.undefined).2.2.2 (by decide)⟩

end osmium
